import Mathlib

/-!
Shallow embedding of the libiocage configuration model
(`libiocage/lib/JailConfig.py`, `libiocage/lib/JailConfigFstab.py`,
`libiocage/lib/ConfigJSON.py`, `libiocage/lib/Resource.py`).

Python values that can live in a jail configuration plain store are
modelled by `Value`; Python exceptions by `PyErr`; a Python `dict` by an
insertion-ordered association list `Store`.  Fallible Python code is
embedded in `Except PyErr`.  Helper functions of
`libiocage/lib/helpers.py` and the collaborator modules that are not
part of the sources (`JailConfigJSON`, `JailConfigLegacy`,
`JailConfigZFS`, `JailConfigAddresses`, `JailConfigInterfaces`,
`JailConfigResolver`, `JailConfigDefaults`) are modelled from the
specification; each such definition carries a doc comment saying so.
-/

namespace Libiocage

/-- A Python value as it can appear in the configuration plain store:
a string, a boolean, an integer, `None`, a list of strings, or an
opaque non-data Python object (such as a bound method reachable by
attribute passthrough), identified by a deterministic display tag. -/
inductive Value where
  | str (s : String)
  | bool (b : Bool)
  | int (n : Int)
  | vnone
  | list (xs : List String)
  | pyobj (tag : String)
deriving DecidableEq, Repr

/-- Python exceptions raised by the embedded code. -/
inductive PyErr where
  | keyError
  | attributeError
  | typeError
  | valueError
  | invalidJailName
  | invalidJailConfigValue
  | invalidPropertyValue
deriving DecidableEq, Repr

instance exceptDecEq {ε α : Type} [DecidableEq ε] [DecidableEq α] :
    DecidableEq (Except ε α) := fun a b =>
  match a, b with
  | .error x, .error y =>
      if h : x = y then .isTrue (h ▸ rfl)
      else .isFalse (fun hh => h (Except.error.inj hh))
  | .ok x, .ok y =>
      if h : x = y then .isTrue (h ▸ rfl)
      else .isFalse (fun hh => h (Except.ok.inj hh))
  | .error _, .ok _ => .isFalse (fun hh => Except.noConfusion hh)
  | .ok _, .error _ => .isFalse (fun hh => Except.noConfusion hh)

/-- A Python `dict` with `Value` entries: an insertion-ordered
association list without duplicate keys (maintained by `Store.set`). -/
abbrev Store := List (String × Value)

/-- Dict lookup `d[k]`, returning `none` when the key is absent. -/
def Store.get? (d : Store) (k : String) : Option Value :=
  match d with
  | [] => none
  | (k', v) :: rest => if k' = k then some v else Store.get? rest k

/-- Embedding of `d[k] = v`: replace the value in place when the key exists
(Python dicts keep the original insertion position), append otherwise. -/
def Store.set (d : Store) (k : String) (v : Value) : Store :=
  match d with
  | [] => [(k, v)]
  | (k', v') :: rest =>
      if k' = k then (k', v) :: rest else (k', v') :: Store.set rest k v

/-- Embedding of `del d[k]`: remove the entry for `k` (no error handling here;
callers model `KeyError` by checking `Store.get?` first). -/
def Store.del (d : Store) (k : String) : Store :=
  match d with
  | [] => []
  | (k', v') :: rest =>
      if k' = k then rest else (k', v') :: Store.del rest k

/-- The single-quote character used by Python `repr` of strings. -/
def sq : String := String.singleton (Char.ofNat 39)

/-- Is the first character list a prefix of the second? -/
def startsWithChars : List Char → List Char → Bool
  | [], _ => true
  | _ :: _, [] => false
  | a :: as, b :: bs => a = b && startsWithChars as bs

/-- ASCII lowercasing of one character. -/
def lowerChar (c : Char) : Char :=
  if c.toNat ≥ 65 ∧ c.toNat ≤ 90 then Char.ofNat (c.toNat + 32) else c

/-- ASCII lowercasing of a string (Python `str.lower()` on the ASCII
range). -/
def lowerStr (s : String) : String :=
  (s.toList.map lowerChar).asString

/-- Split a character list at every character satisfying `p`, keeping
empty segments (the behavior of Python `str.split(sep)` per
separator occurrence). -/
def splitListBy (p : Char → Bool) : List Char → List (List Char)
  | [] => [[]]
  | c :: rest =>
      let r := splitListBy p rest
      if p c then [] :: r
      else
        match r with
        | [] => [[c]]
        | g :: gs => (c :: g) :: gs

/-- Split a string at every character satisfying `p`, keeping empty
segments. -/
def splitAnyOf (s : String) (p : Char → Bool) : List String :=
  (splitListBy p s.toList).map List.asString

/-- Python `str.split(sep)` for a one-character separator (keeps empty
segments). -/
def splitChar (s : String) (sep : Char) : List String :=
  splitAnyOf s (fun c => c = sep)

/-- Python `str(x)` for the values of the model.  Booleans print as
`True`/`False`, `None` as `None`, lists as their `repr` with
single-quoted elements, opaque objects as their display tag. -/
def pyStr (v : Value) : String :=
  match v with
  | .str s => s
  | .bool true => "True"
  | .bool false => "False"
  | .int n => toString n
  | .vnone => "None"
  | .list xs => "[" ++ String.intercalate ", " (xs.map (fun s => sq ++ s ++ sq)) ++ "]"
  | .pyobj tag => tag

/-- Python truthiness of a value (`bool(x)`). -/
def truthy (v : Value) : Bool :=
  match v with
  | .str s => s ≠ ""
  | .bool b => b
  | .int n => n ≠ 0
  | .vnone => false
  | .list xs => xs ≠ []
  | .pyobj _ => true

/-- Modelled from the spec: `helpers.to_string` (not under `src/`;
§4.1/§6 of the spec): booleans render to the given true/false tokens,
`None` to the given none token, lists are joined by whitespace, other
scalars use their string form. -/
def to_string (v : Value) (t f n : String) : String :=
  match v with
  | .bool true => t
  | .bool false => f
  | .vnone => n
  | .list xs => String.intercalate " " xs
  | .str s => s
  | .int i => toString i
  | .pyobj tag => tag

/-- Modelled from the spec: `helpers.parse_user_input` (not under
`src/`; §4.3: "free-form input … is first coerced to a canonical
internal shape"): the strings yes/true/on coerce to `True`, no/false/off
to `False`, none to `None` (case-insensitive); everything else is
returned unchanged. -/
def parseUserInput (v : Value) : Value :=
  match v with
  | .str s =>
      if lowerStr s = "yes" ∨ lowerStr s = "true" ∨ lowerStr s = "on" then .bool true
      else if lowerStr s = "no" ∨ lowerStr s = "false" ∨ lowerStr s = "off" then .bool false
      else if lowerStr s = "none" then .vnone
      else .str s
  | other => other

/-- Modelled from the spec: `helpers.validate_name` (not under `src/`;
§4.3 name validation: "characters outside `[A-Za-z0-9._-]` … are
rejected").  A name is valid when it is non-empty and every character
is an ASCII letter, a digit, or one of `.`, `_`, `-`. -/
def validate_name (s : String) : Bool :=
  s ≠ "" && s.toList.all (fun c => c.isAlphanum || c = '.' || c = '_' || c = '-')

/-- One hexadecimal digit? -/
def isHexDigit (c : Char) : Bool :=
  c.isDigit || ('a' ≤ c && c ≤ 'f') || ('A' ≤ c && c ≤ 'F')

/-- Modelled from the spec: the legacy-compatibility UUID parse used as
fallback on identity assignment (Python `uuid.UUID`; the stdlib is not
part of the sources).  Strips an optional `urn:uuid:` prefix and
optional surrounding curly braces, removes hyphens, requires exactly 32
hexadecimal digits and returns the canonical lowercase
8-4-4-4-12 form. -/
def uuidNormalize (s : String) : Option String :=
  let l0 := s.toList
  let l1 := if startsWithChars "urn:uuid:".toList l0 then l0.drop 9 else l0
  let l2 :=
    if l1.length ≥ 2 ∧ l1.head? = some (Char.ofNat 123) ∧ l1.getLast? = some (Char.ofNat 125)
    then (l1.drop 1).dropLast else l1
  let hexs := l2.filter (fun c => c ≠ '-')
  if hexs.length = 32 ∧ hexs.all isHexDigit ∧ l2.all (fun c => isHexDigit c ∨ c = '-')
  then
    let h := hexs.map lowerChar
    some ((h.take 8 ++ ['-'] ++ (h.drop 8).take 4 ++ ['-'] ++ (h.drop 12).take 4
          ++ ['-'] ++ (h.drop 16).take 4 ++ ['-'] ++ h.drop 20).asString)
  else none

/-- Substring test on lists of characters (Python `pat in s`). -/
def hasCharRun (pat s : List Char) : Bool :=
  match s with
  | [] => decide (pat = [])
  | _ :: rest => startsWithChars pat s || hasCharRun pat rest

/-- Python `pat in s` for strings. -/
def strContains (s pat : String) : Bool :=
  hasCharRun pat.toList s.toList

/-- Python `str.strip(chars)`: remove the given characters from both
ends. -/
def stripChars (s : String) (chars : List Char) : String :=
  ((s.toList.dropWhile (fun c => chars.contains c)).reverse.dropWhile
    (fun c => chars.contains c)).reverse.asString

/-- Python `str.strip()`: remove whitespace from both ends. -/
def stripWs (s : String) : String :=
  ((s.toList.dropWhile Char.isWhitespace).reverse.dropWhile
    Char.isWhitespace).reverse.asString

/-- Python `str.split()` with no separator: split on whitespace runs,
discarding empty fragments. -/
def splitWs (s : String) : List String :=
  (splitAnyOf s Char.isWhitespace).filter (fun f => f ≠ "")

/-- Python `str.split(sep, maxsplit=1)` outcome for one character:
`some (before, after)` at the first occurrence, `none` when the
character does not occur. -/
def splitOnce (s : String) (c : Char) : Option (String × String) :=
  match s.toList.findIdx? (fun x => x = c) with
  | none => none
  | some i => some ((s.toList.take i).asString, (s.toList.drop (i + 1)).asString)

/-- The in-memory configuration of `JailConfig.__init__`:
`data` is the plain store, `special` the live special-property handlers
(each handler object is modelled by the `Value.pyobj` of its rendered
string form), `defaults` the defaults cascade (modelled from the spec:
`JailConfigDefaults` is not under `src/`), `rcConf` the run-control
sink of the owning jail (`jail.rc_conf`), `tags` the `tags` instance
attribute once `_set_tags` ran, and `hrName` the owning jail's
`humanreadable_name` consulted by `_get_host_hostname`.  The model
represents a configuration attached to a jail, as required by the
run-control and fstab operations. -/
structure JailConfig where
  data : Store
  special : Store
  defaults : Store
  rcConf : Store
  tags : Option (List String)
  hrName : String
deriving DecidableEq, Repr

/-- Names shadowed by instance attributes or (inherited dict) methods of
the `JailConfig` class: for these keys the attribute-passthrough tier of
`__getitem_user` yields a non-data Python object.  Keys with a leading
underscore over-approximate the private methods (`_set_*`, `_get_*`,
`_default_*`, `_load_defaults`, `_skip_on_error`, dunder names). -/
def jailConfigAttrNames : List String :=
  ["data", "special_properties", "logger", "jail", "fstab", "defaults_file",
   "defaults", "clone", "read", "save", "save_json", "get_string", "set",
   "update_special_property", "attach_special_property", "stringify",
   "all_properties", "keys", "values", "items", "get", "pop", "popitem",
   "setdefault", "update", "clear", "copy", "fromkeys"]

/-- Is `k` the name of an instance attribute or method of `JailConfig`
(other than `tags`, which only exists after `_set_tags` ran)? -/
def isAttrName (k : String) : Bool :=
  jailConfigAttrNames.contains k || startsWithChars "_".toList k.toList

/-- Embedding of `self.__getattribute__(key)` on a `JailConfig`: the `tags` list when
set, an opaque object for attribute/method names, `AttributeError`
otherwise (configuration keys are not instance attributes). -/
def getattrModel (cfg : JailConfig) (key : String) : Except PyErr Value :=
  if key = "tags" then
    match cfg.tags with
    | some xs => .ok (.list xs)
    | none => .error .attributeError
  else if isAttrName key then .ok (.pyobj ("<attribute " ++ key ++ ">"))
  else .error .attributeError

/-- Embedding of `JailConfig.stringify` (source lines 652-653):
`return libiocage.helpers.to_string if (enabled is True) else value`.
When `enabled` the expression evaluates the attribute `helpers` of the
package `libiocage`, which does not exist (the helpers module lives at
`libiocage.lib.helpers`), so the access raises `AttributeError`; note
that even under a resolving import the expression would produce the
`to_string` function object itself — it never applies it to `value`.
When not enabled the value is returned unchanged. -/
def stringify (v : Value) (enabled : Bool) : Except PyErr Value :=
  if enabled then .error .attributeError else .ok v

/-- Embedding of `JailConfig._get_jail_zfs_dataset`. -/
def getJailZfsDataset (cfg : JailConfig) : Except PyErr Value :=
  match cfg.data.get? "jail_zfs_dataset" with
  | none => .ok (.list [])
  | some (.str s) => .ok (.list (splitWs s))
  | some _ => .error .attributeError

/-- Apply `stringify` to a tier result; any error of the tier
propagates (to be swallowed by the tier's bare `except`). -/
def tierStringify (r : Except PyErr Value) (string : Bool) : Except PyErr Value :=
  match r with
  | .ok v => stringify v string
  | .error e => .error e

/-- The plain-data tier of `__getitem_user` followed by the final
`raise KeyError`. -/
def getPlainTier (cfg : JailConfig) (key : String) (string : Bool) : Except PyErr Value :=
  match cfg.data.get? key with
  | some v =>
      match stringify v string with
      | .ok v' => .ok v'
      | .error _ => .error .keyError
  | none => .error .keyError

/-- The `_get_<key>` special getters of `JailConfig`, by key; `none`
when no getter method exists for the key. -/
def runGetterWith (self : JailConfig → String → Except PyErr Value)
    (cfg : JailConfig) (key : String) : Option (Except PyErr Value) :=
  if key = "type" then some (do
        let bj ← self cfg "basejail"
        if truthy bj then pure (.str "basejail")
        else do
          let cj ← self cfg "clonejail"
          if truthy cj then pure (.str "clonejail") else pure (.str "jail"))
      else if key = "basejail" then some (
        match cfg.data.get? "basejail" with
        | some v => .ok (parseUserInput v)
        | none => .error .keyError)
      else if key = "clonejail" then some (
        match cfg.data.get? "clonejail" with
        | some v => .ok (parseUserInput v)
        | none => .error .keyError)
      else if key = "ip4_addr" then some (.ok (
        match cfg.special.get? "ip4_addr" with
        | some h => h
        | none => .vnone))
      else if key = "ip6_addr" then some (.ok (
        match cfg.special.get? "ip6_addr" with
        | some h => h
        | none => .vnone))
      else if key = "interfaces" then some (
        match cfg.special.get? "interfaces" with
        | some h => .ok h
        | none => .error .keyError)
      else if key = "defaultrouter" ∨ key = "defaultrouter6" then some (
        match cfg.data.get? key with
        | some v => .ok (if v ≠ .str "none" ∧ v ≠ .vnone then v else .vnone)
        | none => .error .keyError)
      else if key = "vnet" then some (
        match cfg.data.get? "vnet" with
        | some v => .ok (parseUserInput v)
        | none => .error .keyError)
      else if key = "jail_zfs_dataset" then some (getJailZfsDataset cfg)
      else if key = "jail_zfs" then some (do
        let enabled ←
          match cfg.data.get? "jail_zfs" with
          | some v => pure (parseUserInput v)
          | none =>
              -- `_default_jail_zfs`: any failure inside yields False
              match self cfg "jail_zfs_dataset" with
              | .ok (.list xs) => pure (Value.bool (xs.length > 0))
              | .ok (.str s) => pure (Value.bool (s.length > 0))
              | _ => pure (Value.bool false)
        if truthy enabled then pure enabled
        else
          match self cfg "jail_zfs_dataset" with
          | .ok (.list xs) =>
              if xs.length > 0 then throw .invalidJailConfigValue else pure enabled
          | .ok (.str s) =>
              if s.length > 0 then throw .invalidJailConfigValue else pure enabled
          | .ok _ => throw .typeError
          | .error e => throw e)
      else if key = "resolver" then some (
        -- Modelled from the spec: the Resolver handler (`JailConfigResolver`
        -- is not under `src/`); get-or-create reads the serialized value
        -- from the plain store, falling back to the defaults cascade
        match cfg.special.get? "resolver" with
        | some h => .ok h
        | none =>
            match cfg.data.get? "resolver" with
            | some v => .ok (.pyobj (pyStr v))
            | none =>
                match cfg.defaults.get? "resolver" with
                | some v => .ok (.pyobj (pyStr v))
                | none => .error .keyError)
      else if key = "cloned_release" then some (
        match cfg.data.get? "cloned_release" with
        | some v => .ok v
        | none => self cfg "release")
      else if key = "basejail_type" then some (
        match cfg.data.get? "basejail_type" with
        | some v => .ok v
        | none =>
            -- inner try/except: any failure falls through to `return None`
            match self cfg "basejail" with
            | .ok bj => if truthy bj then .ok (.str "nullfs") else .ok .vnone
            | .error _ => .ok .vnone)
      else if key = "login_flags" then some (
        match cfg.data.get? "login_flags" with
        | some (.str s) => .ok (.list (splitWs s))
        | some _ => .error .attributeError
        | none => .ok (.list ["-f", "root"]))
      else if key = "host_hostname" then some (
        match cfg.data.get? "host_hostname" with
        | some v => .ok v
        | none => .ok (.str cfg.hrName))
      else if key = "host_hostuuid" then some (
        match cfg.data.get? "host_hostuuid" with
        | some v => .ok v
        | none => self cfg "id")
      else none

/-- Embedding of `JailConfig.__getitem_user(key, string)`: attribute passthrough,
then the `_get_<key>` special getter, then the plain data store, each
tier guarded by a bare `except` (so a failing `stringify` skips the
tier); raises `KeyError` when every tier fails. -/
def getItemUserWith (self : JailConfig → String → Except PyErr Value)
    (cfg : JailConfig) (key : String) (string : Bool) : Except PyErr Value :=
  match tierStringify (getattrModel cfg key) string with
  | .ok v => .ok v
  | .error _ =>
      match runGetterWith self cfg key with
      | some r =>
          match tierStringify r string with
          | .ok v => .ok v
          | .error _ => getPlainTier cfg key string
      | none => getPlainTier cfg key string

/-- Embedding of `JailConfig.__getitem__(key, string)`: the user chain, falling back
to the defaults cascade (which is returned raw, without `stringify`);
nested `self[...]` lookups inside getters burn one unit of the depth
budget. -/
def getItemFullF : Nat → JailConfig → String → Bool → Except PyErr Value
  | 0, _, _, _ => .error .keyError
  | Nat.succ fuel, cfg, key, string =>
      match getItemUserWith (fun c k => getItemFullF fuel c k false) cfg key string with
      | .ok v => .ok v
      | .error _ =>
          match cfg.defaults.get? key with
          | some v => .ok v
          | none => .error .keyError

/-- Recursion depth budget: the getter call graph of the source nests
`self[...]` lookups at most three levels deep, so this budget is never
exhausted by the embedded chain. -/
def fuelN : Nat := 12

/-- Embedding of `config[key]` (`__getitem__` with `string=False`). -/
def getItem (cfg : JailConfig) (key : String) : Except PyErr Value :=
  getItemFullF fuelN cfg key false

/-- Embedding of `JailConfig.get_string(key)`: `__getitem__` with `string=True`. -/
def getString (cfg : JailConfig) (key : String) : Except PyErr Value :=
  getItemFullF fuelN cfg key true

/-- Embedding of `JailConfig.__getitem_user(key)` at default `string=False`, as used
by `JailConfig.set` for its before/after probes. -/
def getItemUser (cfg : JailConfig) (key : String) : Except PyErr Value :=
  getItemUserWith (fun c k => getItemFullF fuelN c k false) cfg key false

/-- Embedding of `JailConfig._set_name`.  The `self.id == name` same-name guard is
dead code: `id` is not an instance attribute, so the access raises
`AttributeError`, which the bare `except` swallows.  The character
findall only feeds a log message; the decision is made by
`validate_name`, with `uuid.UUID` as legacy fallback.  The final
`self["id"] = ...` routes through `__setitem__`, which has no
`_set_id` and therefore writes `parse_user_input` of the value to the
plain store.  A non-string name makes `re.findall` raise `TypeError`. -/
def setName (cfg : JailConfig) (name : Value) : Except PyErr JailConfig :=
  match name with
  | .str s =>
      if validate_name s then
        .ok { cfg with data := cfg.data.set "id" (parseUserInput (.str s)) }
      else
        match uuidNormalize s with
        | some c => .ok { cfg with data := cfg.data.set "id" (parseUserInput (.str c)) }
        | none => .error .invalidJailName
  | _ => .error .typeError

/-- Embedding of `JailConfig._set_basejail`: renders through `to_string` with
on/off tokens when `self["legacy"]`, yes/no tokens otherwise;
a failing `self["legacy"]` lookup propagates. -/
def setBasejail (cfg : JailConfig) (v : Value) : Except PyErr JailConfig := do
  let lv ← getItem cfg "legacy"
  if truthy lv then
    pure { cfg with data := cfg.data.set "basejail" (.str (to_string v "on" "off" "none")) }
  else
    pure { cfg with data := cfg.data.set "basejail" (.str (to_string v "yes" "no" "none")) }

/-- Embedding of `JailConfig._set_clonejail`: always on/off tokens. -/
def setClonejail (cfg : JailConfig) (v : Value) : JailConfig :=
  { cfg with data := cfg.data.set "clonejail" (.str (to_string v "on" "off" "none")) }

/-- Embedding of `JailConfig._set_type`: the literal "basejail" sets
basejail=True/clonejail=False and normalizes the stored type field to
"jail"; "clonejail" is the inverse; any other value passes through to
the plain field. -/
def setType (cfg : JailConfig) (v : Value) : Except PyErr JailConfig :=
  if v = .str "basejail" then do
    let cfg1 ← setBasejail cfg (.bool true)
    let cfg2 := setClonejail cfg1 (.bool false)
    pure { cfg2 with data := cfg2.data.set "type" (.str "jail") }
  else if v = .str "clonejail" then do
    let cfg1 ← setBasejail cfg (.bool false)
    let cfg2 := setClonejail cfg1 (.bool true)
    pure { cfg2 with data := cfg2.data.set "type" (.str "jail") }
  else
    .ok { cfg with data := cfg.data.set "type" v }

/-- Modelled from the spec: the AddressList handler
(`JailConfigAddresses` is not under `src/`; §4.3: "parses a
delimiter-separated list of `interface|address` pairs; validates
address syntax").  Returns the handler object (its rendered string
form); a malformed entry raises `InvalidPropertyValue` unless
`skip_on_error`, in which case the raw, unvalidated value becomes the
handler content. -/
def addressesHandler (value : Value) (skipOnError : Bool) : Except PyErr Value :=
  let entries : Option (List String) :=
    match value with
    | .vnone => some []
    | .str s => some ((splitAnyOf s (fun c => c = ',' ∨ c.isWhitespace)).filter (fun e => e ≠ ""))
    | .list xs => some xs
    | _ => none
  let wellFormed (e : String) : Bool :=
    match splitOnce e '|' with
    | some (iface, addr) => iface ≠ "" && addr ≠ ""
    | none => false
  match entries with
  | some es =>
      if es.all wellFormed then .ok (.pyobj (String.intercalate " " es))
      else if skipOnError then .ok (.pyobj (pyStr value))
      else .error .invalidPropertyValue
  | none =>
      if skipOnError then .ok (.pyobj (pyStr value))
      else .error .invalidPropertyValue

/-- Embedding of `JailConfig._set_ip4_addr`: builds the handler (no
`skip_on_error` is resolved here), registers it and notifies the plain
store with its string form. -/
def setIp4Addr (cfg : JailConfig) (v : Value) : Except PyErr JailConfig := do
  let h ← addressesHandler v false
  pure { cfg with
    special := cfg.special.set "ip4_addr" h
    data := cfg.data.set "ip4_addr" (.str (pyStr h)) }

/-- Embedding of `JailConfig._set_ip6_addr`.  `self._skip_on_error(**kwargs)` reads
`kwargs["skip_on_error"]` under an `except AttributeError:` clause, so
a missing key raises an uncaught `KeyError` before anything is stored.
On success the handler is registered, the plain store notified, and
the run-control sink's `rtsold_enable` flag set to whether the string
form of the assigned value contains `accept_rtadv`. -/
def setIp6Addr (cfg : JailConfig) (v : Value) (kwargs : Option Value) :
    Except PyErr JailConfig := do
  let skip ←
    match kwargs with
    | some kv => pure (decide (kv = Value.bool true))
    | none => throw PyErr.keyError
  let h ← addressesHandler v skip
  pure { cfg with
    special := cfg.special.set "ip6_addr" h
    data := cfg.data.set "ip6_addr" (.str (pyStr h))
    rcConf := cfg.rcConf.set "rtsold_enable" (.bool (strContains (pyStr v) "accept_rtadv")) }

/-- Modelled from the spec: the InterfaceList handler
(`JailConfigInterfaces` is not under `src/`; §4.3: "parses a
space/comma list of interface names"). -/
def interfacesHandler (value : Value) : Except PyErr Value :=
  match value with
  | .str s => .ok (.pyobj (String.intercalate " "
      ((splitAnyOf s (fun c => c = ',' ∨ c.isWhitespace)).filter (fun e => e ≠ ""))))
  | .list xs => .ok (.pyobj (String.intercalate " " xs))
  | .vnone => .ok (.pyobj "")
  | _ => .error .typeError

/-- Embedding of `JailConfig._set_interfaces`. -/
def setInterfaces (cfg : JailConfig) (v : Value) : Except PyErr JailConfig := do
  let h ← interfacesHandler v
  pure { cfg with
    special := cfg.special.set "interfaces" h
    data := cfg.data.set "interfaces" (.str (pyStr h)) }

/-- Embedding of `JailConfig._set_defaultrouter` / `_set_defaultrouter6`:
`None` is stored as the literal string "none". -/
def setDefaultrouter (cfg : JailConfig) (key : String) (v : Value) : JailConfig :=
  let v' := if v = Value.vnone then Value.str "none" else v
  { cfg with data := cfg.data.set key v' }

/-- Embedding of `JailConfig._set_vnet`. -/
def setVnet (cfg : JailConfig) (v : Value) : JailConfig :=
  { cfg with data := cfg.data.set "vnet" (.str (to_string v "on" "off" "none")) }

/-- Embedding of `JailConfig._set_jail_zfs_dataset`: a string is wrapped into a
one-element list, then the list is space-joined; joining anything else
raises `TypeError`. -/
def setJailZfsDataset (cfg : JailConfig) (v : Value) : Except PyErr JailConfig :=
  match v with
  | .str s => .ok { cfg with data := cfg.data.set "jail_zfs_dataset" (.str s) }
  | .list xs => .ok { cfg with data := cfg.data.set "jail_zfs_dataset" (.str (String.intercalate " " xs)) }
  | _ => .error .typeError

/-- Embedding of `JailConfig._set_jail_zfs`: `None` or the empty string delete the
stored entry (`del` raises `KeyError` when it is absent); anything
else is rendered with on/off tokens. -/
def setJailZfs (cfg : JailConfig) (v : Value) : Except PyErr JailConfig :=
  if v = Value.vnone ∨ v = Value.str "" then
    match cfg.data.get? "jail_zfs" with
    | some _ => .ok { cfg with data := cfg.data.del "jail_zfs" }
    | none => .error .keyError
  else
    .ok { cfg with data := cfg.data.set "jail_zfs" (.str (to_string v "on" "off" "none")) }

/-- Embedding of `JailConfig._set_resolver`, with the Resolver handler modelled from
the spec (`JailConfigResolver` is not under `src/`; §4.3: the handler
serializes the directives and, with `notify`, pushes the serialized
form back into the plain store). -/
def setResolver (cfg : JailConfig) (v : Value) : Except PyErr JailConfig := do
  let rendered ←
    match v with
    | .str s => pure s
    | .list xs => pure (String.intercalate ";" xs)
    | _ => throw PyErr.typeError
  pure { cfg with
    data := cfg.data.set "resolver" (.str rendered)
    special := cfg.special.set "resolver" (.pyobj rendered) }

/-- Embedding of `JailConfig._set_login_flags`: `None` deletes quietly; a list is
space-joined; a string is stored; anything else raises
`InvalidJailConfigValue`. -/
def setLoginFlags (cfg : JailConfig) (v : Value) : Except PyErr JailConfig :=
  match v with
  | .vnone => .ok { cfg with data := cfg.data.del "login_flags" }
  | .list xs => .ok { cfg with data := cfg.data.set "login_flags" (.str (String.intercalate " " xs)) }
  | .str s => .ok { cfg with data := cfg.data.set "login_flags" (.str s) }
  | _ => .error .invalidJailConfigValue

/-- Embedding of `JailConfig._set_tags`: a string splits on commas, a list is kept
(the source turns it into a set; the model keeps the order); anything
else raises `InvalidJailConfigValue`.  The tags live in an instance
attribute, not in the plain store. -/
def setTags (cfg : JailConfig) (v : Value) : Except PyErr JailConfig :=
  match v with
  | .str s => .ok { cfg with tags := some (splitChar s ',') }
  | .list xs => .ok { cfg with tags := some xs }
  | _ => .error .invalidJailConfigValue

/-- Embedding of `JailConfig.__setitem__(key, value, **kwargs)`: coerce through
`parse_user_input`, then dispatch to the `_set_<key>` method when one
exists, otherwise write the plain store directly. -/
def setItem (cfg : JailConfig) (key : String) (value : Value) (kwargs : Option Value) :
    Except PyErr JailConfig :=
  let parsed := parseUserInput value
  if key = "name" then setName cfg parsed
  else if key = "type" then setType cfg parsed
  else if key = "basejail" then setBasejail cfg parsed
  else if key = "clonejail" then .ok (setClonejail cfg parsed)
  else if key = "ip4_addr" then setIp4Addr cfg parsed
  else if key = "ip6_addr" then setIp6Addr cfg parsed kwargs
  else if key = "interfaces" then setInterfaces cfg parsed
  else if key = "defaultrouter" ∨ key = "defaultrouter6" then
    .ok (setDefaultrouter cfg key parsed)
  else if key = "vnet" then .ok (setVnet cfg parsed)
  else if key = "jail_zfs_dataset" then setJailZfsDataset cfg parsed
  else if key = "jail_zfs" then setJailZfs cfg parsed
  else if key = "resolver" then setResolver cfg parsed
  else if key = "login_flags" then setLoginFlags cfg parsed
  else if key = "tags" then setTags cfg parsed
  else .ok { cfg with data := cfg.data.set key parsed }

/-- The rendered string of the user-visible value of `key`, `none` when
`__getitem_user` raises; this is what `JailConfig.set` hashes before
and after an assignment. -/
def userRender (cfg : JailConfig) (key : String) : Option String :=
  match getItemUser cfg key with
  | .ok v => some (pyStr v)
  | .error _ => none

/-- Embedding of `JailConfig.set(key, value, **kwargs)`: probes
`str(self.__getitem_user(key)).__hash__()` before and after the
assignment (`None` on any failure) and reports whether the two hashes
differ.  The Python string hash is modelled by the string itself, so
the comparison below is hash equality up to collisions. -/
def setReport (cfg : JailConfig) (key : String) (value : Value) (kwargs : Option Value) :
    Except PyErr (JailConfig × Bool) := do
  let before : Option String := userRender cfg key
  let cfg' ← setItem cfg key value kwargs
  let after : Option String := userRender cfg' key
  pure (cfg', decide (before ≠ after))

/-- The alias keys of the identity. -/
def isAliasKey (k : String) : Bool :=
  k = "id" ∨ k = "name" ∨ k = "uuid"

/-- The item loop of `JailConfig.clone`: each pair is applied through
`__setitem__` with `skip_on_error` in the kwargs; an alias key is
pinned to the already-set id.  On an error the partially updated
configuration at that point is reported together with the raised
exception. -/
def cloneGo (cfg : JailConfig) (cur : Value) (m : Store) (skip : Bool) :
    JailConfig × Option PyErr :=
  match m with
  | [] => (cfg, none)
  | (k, v) :: rest =>
      let v' := if isAliasKey k ∧ cur ≠ Value.vnone then cur else v
      match setItem cfg k v' (some (.bool skip)) with
      | .ok cfg' => cloneGo cfg' cur rest skip
      | .error e => (cfg, some e)

/-- Embedding of `JailConfig.clone(data, skip_on_error)`: reads the current id
through `__getitem__` (a failure there aborts before any item is
applied), then applies every pair with alias keys pinned. -/
def clone (cfg : JailConfig) (m : Store) (skip : Bool) : JailConfig × Option PyErr :=
  match getItem cfg "id" with
  | .error e => (cfg, some e)
  | .ok cur => cloneGo cfg cur m skip

/-- The first value among the keys id, name, uuid of the input mapping,
in that fixed order (`for key in ["id", "name", "uuid"]`). -/
def firstAlias (input : Store) : Option Value :=
  match input.get? "id" with
  | some v => some v
  | none =>
      match input.get? "name" with
      | some v => some v
      | none => input.get? "uuid"

/-- Embedding of `JailConfig.__init__(data, ...)` for a configuration attached to a
jail: seeds `legacy=False` and `id=None` in the plain store, assigns
`self["name"]` from the first alias present in the input, derives the
legacy flag from the input's `legacy is True`, and finally applies the
whole input mapping through `clone` (whose error, if any, propagates
out of the constructor). -/
def initConfig (input : Store) (defaults : Store) : Except PyErr JailConfig := do
  let cfg0 : JailConfig :=
    { data := [], special := [], defaults := defaults, rcConf := [],
      tags := none, hrName := "" }
  let cfg1 : JailConfig :=
    { cfg0 with data := (cfg0.data.set "legacy" (.bool false)).set "id" Value.vnone }
  let cfg2 ←
    match firstAlias input with
    | some v => setItem cfg1 "name" v none
    | none => pure cfg1
  let legacyVal : Value :=
    match input.get? "legacy" with
    | some (.bool true) => .bool true
    | _ => .bool false
  let cfg3 ← setItem cfg2 "legacy" legacyVal none
  match clone cfg3 input false with
  | (cfg4, none) => pure cfg4
  | (_, some e) => throw e

/-- The three persisted encodings a configuration may live in.
Modelled from the spec: the backend modules `JailConfigJSON`,
`JailConfigLegacy` and `JailConfigZFS` are not under `src/`; an
encoding is present (`exists`) when it holds a stored mapping. -/
structure EncodingEnv where
  json : Option Store
  ucl : Option Store
  zfs : Option Store
deriving DecidableEq, Repr

/-- The probe and load steps `JailConfig.read` can perform, in the
order it performs them. -/
inductive ReadEvent where
  | checkJson
  | checkUcl
  | checkZfs
  | loadJson
  | loadUcl
  | loadZfs
deriving DecidableEq, Repr

/-- Modelled from the spec: a backend `read` loads the stored mapping
into the configuration's plain store (the backend modules are not under
`src/`; §3 lifecycle: "read() attempts the three encodings … first
found wins"). -/
def applyStore (cfg : JailConfig) (m : Store) : JailConfig :=
  { cfg with data := m.foldl (fun d kv => d.set kv.1 kv.2) cfg.data }

/-- Embedding of `self["legacy"] = b` as performed right after a successful backend
read (`__setitem__` has no `_set_legacy`, so it writes the plain
store). -/
def setLegacyFlag (cfg : JailConfig) (b : Bool) : JailConfig :=
  { cfg with data := cfg.data.set "legacy" (.bool b) }

/-- Embedding of `JailConfig.read`: probe JSON, then the legacy UCL file, then ZFS
properties, in an if/elif chain; the first present encoding is loaded,
the legacy flag set (False for JSON, True otherwise), and its tag
returned; when none is present the configuration is left untouched and
`None` is returned.  The third component records which probe and load
steps ran. -/
def readConfig (env : EncodingEnv) (cfg : JailConfig) :
    Option String × JailConfig × List ReadEvent :=
  match env.json with
  | some m =>
      (some "json", setLegacyFlag (applyStore cfg m) false, [.checkJson, .loadJson])
  | none =>
      match env.ucl with
      | some m =>
          (some "ucl", setLegacyFlag (applyStore cfg m) true,
           [.checkJson, .checkUcl, .loadUcl])
      | none =>
          match env.zfs with
          | some m =>
              (some "zfs", setLegacyFlag (applyStore cfg m) true,
               [.checkJson, .checkUcl, .checkZfs, .loadZfs])
          | none => (none, cfg, [.checkJson, .checkUcl, .checkZfs])

/-- The observable states of the file backing a `ConfigJSON` store:
absent, present but unreadable, present with content that fails to
parse, or present with a parseable mapping. -/
inductive FileState where
  | absent
  | unreadable
  | corrupt (raw : String)
  | valid (m : Store)
deriving Repr

/-- Opening and JSON-decoding the backing file: every non-valid state
raises. -/
def readRaw (fs : FileState) : Except PyErr Store :=
  match fs with
  | .absent => .error .keyError
  | .unreadable => .error .keyError
  | .corrupt _ => .error .valueError
  | .valid m => .ok m

/-- Embedding of `ConfigJSON.read`: the whole open/parse sequence sits under a bare
`except` that returns an empty mapping. -/
def configRead (fs : FileState) : Store :=
  match readRaw fs with
  | .ok m => m
  | .error _ => []

/-- Byte-wise comparison of strings by code point, total order used to
model Python `sorted` over keys. -/
def listCharLeb : List Char → List Char → Bool
  | [], _ => true
  | _ :: _, [] => false
  | a :: as, b :: bs => if a = b then listCharLeb as bs else decide (a < b)

/-- Key order of `json.dumps(..., sort_keys=True)`. -/
def strLeb (a b : String) : Bool :=
  listCharLeb a.toList b.toList

/-- Insert a key/value pair into a list sorted by `strLeb` on keys. -/
def insertSorted (p : String × String) : List (String × String) → List (String × String)
  | [] => [p]
  | q :: rest => if strLeb p.1 q.1 then p :: q :: rest else q :: insertSorted p rest

/-- Sort pairs by key (insertion sort; `sorted` in Python). -/
def sortPairs (l : List (String × String)) : List (String × String) :=
  l.foldr insertSorted []

/-- JSON string escaping for the characters that can occur in rendered
values: backslash and double quote. -/
def escapeJson (s : String) : String :=
  String.join (s.toList.map (fun c =>
    if c = '\\' then "\\\\"
    else if c = '"' then "\\\""
    else String.singleton c))

/-- A JSON string literal. -/
def jsonQuote (s : String) : String :=
  "\"" ++ escapeJson s ++ "\""

/-- The key/value pairs `ConfigJSON.to_json` serializes: every value
coerced to its canonical string (booleans to yes/no, `None` to none),
keys sorted. -/
def to_json_pairs (data : Store) : List (String × String) :=
  let m : Store := data.foldl (fun acc kv => Store.set acc kv.1 kv.2) []
  sortPairs (m.map (fun kv => (kv.1, to_string kv.2 "yes" "no" "none")))

/-- Embedding of `ConfigJSON.to_json`: `json.dumps(output_data, sort_keys=True,
indent=4)` over the coerced mapping. -/
def to_json (data : Store) : String :=
  match to_json_pairs data with
  | [] => "\x7b\x7d"
  | ps =>
      "\x7b\n"
      ++ String.intercalate ",\n"
           (ps.map (fun kv => "    " ++ jsonQuote kv.1 ++ ": " ++ jsonQuote kv.2))
      ++ "\n\x7d"

/-- Embedding of `ConfigJSON.write`: `open(file, "w")` truncates the file, so the
new content never depends on the previous content; the argument
`previous` is the file content before the call. -/
def configWrite (_previous : String) (data : Store) : String :=
  to_json data

/-- One mount-table record (`FstabLine`); the Python class hashes by
destination but inherits full-record dict equality.  The `type` field
of the record is named `fsType` here. -/
structure FstabLine where
  source : String
  destination : String
  fsType : String
  options : String
  dump : String
  passnum : String
  comment : Option String
deriving DecidableEq, Repr

/-- Modelled from the spec: the host collaborator consulted by the
fstab generator — `jail.host.datasets.releases.mountpoint`, the
distribution name, and `helpers.get_basedir_list` (not under `src/`;
§6: "a release/base-directory lookup returning an ordered list of
bind-mount directories for a given OS distribution"), whose result for
this host's distribution is `basedirList`. -/
structure Host where
  releasesMountpoint : String
  distributionName : String
  basedirList : List String
deriving Repr

/-- Modelled from the spec: the owning jail collaborator (its `path`,
host and configuration), as consulted by `JailConfigFstab`. -/
structure Jail where
  path : String
  host : Host
  config : JailConfig
deriving Repr

/-- Embedding of `JailConfigFstab`: a `set` subclass; `stored` are the explicitly
added entries, kept in insertion order. -/
structure Fstab where
  jail : Jail
  stored : List FstabLine
deriving Repr

/-- Messages `parse_lines` can log. -/
inductive FstabLog where
  | invalidLine
  | duplicate (destination : String)
deriving DecidableEq, Repr

/-- Embedding of `_line_to_string`: tab-joined fields, optional ` # comment`. -/
def lineToString (l : FstabLine) : String :=
  let out := String.intercalate "\t"
    [l.source, l.destination, l.fsType, l.options, l.dump, l.passnum]
  match l.comment with
  | some c => out ++ " # " ++ c
  | none => out

/-- Embedding of `JailConfigFstab.basejail_lines`: for a basejail of nullfs type,
one generated read-only nullfs entry per base directory, tagged with
the reserved comment; otherwise an empty list.  Configuration lookups
go through the owning jail's config and their failures propagate. -/
def basejailLines (f : Fstab) : Except PyErr (List FstabLine) := do
  let bj ← getItem f.jail.config "basejail"
  let bjt ← getItem f.jail.config "basejail_type"
  if ¬(truthy bj ∧ bjt = Value.str "nullfs") then
    pure []
  else do
    let cr ← getItem f.jail.config "cloned_release"
    pure (f.jail.host.basedirList.map (fun d =>
      { source := f.jail.host.releasesMountpoint ++ "/" ++ pyStr cr ++ "/root/" ++ d
        destination := f.jail.path ++ "/root/" ++ d
        fsType := "nullfs"
        options := "ro"
        dump := "0"
        passnum := "0"
        comment := some "iocage-auto" }))

/-- Embedding of `JailConfigFstab.__iter__`: the stored entries followed by the
freshly computed basejail lines. -/
def iterLines (f : Fstab) : Except PyErr (List FstabLine) := do
  pure (f.stored ++ (← basejailLines f))

/-- Embedding of `JailConfigFstab.__contains__`: iterates `self`, but the
else-branch `return False` sits inside the loop, so only the first
iterated entry is ever examined; an empty iteration falls off the loop
and returns `None` (falsy). -/
def fstabContains (f : Fstab) (l : FstabLine) : Except PyErr Bool := do
  let entries ← iterLines f
  match entries with
  | [] => pure false
  | e :: _ => pure (decide (e.destination = l.destination))

/-- Embedding of `JailConfigFstab.add_line` via `set.add`: membership uses the
inherited dict equality (full record), so a new line is appended
unless an identical record is already present. -/
def addLine (f : Fstab) (l : FstabLine) : Fstab :=
  if f.stored.contains l then f else { f with stored := f.stored ++ [l] }

/-- Embedding of `JailConfigFstab.add` with its default field values spelled out at
every call site. -/
def fstabAdd (f : Fstab) (src dst ty opts dmp pass : String) (cmt : Option String) : Fstab :=
  addLine f
    { source := src, destination := dst, fsType := ty, options := opts,
      dump := dmp, passnum := pass, comment := cmt }

/-- The tail of one `parse_lines` iteration, after the comment was
split off: strip the body, skip empty lines, require exactly six
fields (logging an invalid-line warning otherwise), log a
duplicate-destination error when `__contains__` reports one, and add
the entry. -/
def parseFstabFields (f : Fstab) (logs : List FstabLog) (body0 : String)
    (comment : Option String) : Except PyErr (Fstab × List FstabLog) :=
  let body := stripWs body0
  if body = "" then .ok (f, logs)
  else
    let frags := splitWs body
    if frags.length = 6 then do
      let nl : FstabLine :=
        { source := frags.getD 0 "", destination := frags.getD 1 "",
          fsType := frags.getD 2 "", options := frags.getD 3 "",
          dump := frags.getD 4 "", passnum := frags.getD 5 "",
          comment := comment }
      let dup ← fstabContains f nl
      let logs' := if dup then logs ++ [.duplicate nl.destination] else logs
      pure (addLine f nl, logs')
    else .ok (f, logs ++ [.invalidLine])

/-- One line of `JailConfigFstab.parse_lines`: split an optional
`# comment` (an auto-created comment is discarded when
`ignore_auto_created`, skipping the line), then process the fields. -/
def parseFstabLine (f : Fstab) (logs : List FstabLog) (line : String) (ignoreAuto : Bool) :
    Except PyErr (Fstab × List FstabLog) :=
  match splitOnce line '#' with
  | some (pre, post) =>
      let c := stripChars post ['#', ' ']
      if ignoreAuto ∧ c = "iocage-auto" then .ok (f, logs)
      else parseFstabFields f logs pre (some c)
  | none => parseFstabFields f logs line none

/-- The line loop of `parse_lines`. -/
def parseLinesGo (f : Fstab) (logs : List FstabLog) (lines : List String) (ignoreAuto : Bool) :
    Except PyErr (Fstab × List FstabLog) :=
  match lines with
  | [] => .ok (f, logs)
  | l :: rest => do
      let (f', logs') ← parseFstabLine f logs l ignoreAuto
      parseLinesGo f' logs' rest ignoreAuto

/-- Embedding of `JailConfigFstab.parse_lines(input, ignore_auto_created)`: clears
the stored entries, then processes `input.split("\n")` line by line. -/
def parseLines (f : Fstab) (input : String) (ignoreAuto : Bool) :
    Except PyErr (Fstab × List FstabLog) :=
  parseLinesGo { f with stored := [] } [] (splitChar input (Char.ofNat 10)) ignoreAuto

/-- One generated basejail line of `basejail_lines`, for cloned
release `cr` and base directory `d`. -/
def mkAutoLine (f : Fstab) (cr : Value) (d : String) : FstabLine :=
  { source := f.jail.host.releasesMountpoint ++ "/" ++ pyStr cr ++ "/root/" ++ d
    destination := f.jail.path ++ "/root/" ++ d
    fsType := "nullfs"
    options := "ro"
    dump := "0"
    passnum := "0"
    comment := some "iocage-auto" }

/-- A stored identity in the shape identity assignment (`_set_name`)
produces: it passes name validation or is its own canonical UUID form,
and input coercion leaves it unchanged. -/
def idStable (i : String) : Prop :=
  (validate_name i = true ∨ uuidNormalize i = some i) ∧
    parseUserInput (.str i) = .str i

instance idStableDec (i : String) : Decidable (idStable i) := by
  unfold idStable
  infer_instance

instance : Inhabited JailConfig :=
  ⟨{ data := [], special := [], defaults := [], rcConf := [], tags := none, hrName := "" }⟩

/-- An empty configuration record (base for the concrete fixtures). -/
def cfgEmpty : JailConfig :=
  { data := [], special := [], defaults := [], rcConf := [], tags := none, hrName := "" }

/-- A configuration whose jail is not a basejail. -/
def cfgNoBase : JailConfig :=
  { cfgEmpty with data := [("legacy", Value.bool false), ("basejail", Value.str "no")] }

/-- A nullfs basejail configuration cloned from release 13.0. -/
def cfgBase : JailConfig :=
  { cfgEmpty with data :=
      [("legacy", Value.bool false), ("basejail", Value.str "yes"),
       ("basejail_type", Value.str "nullfs"), ("cloned_release", Value.str "13.0")] }

/-- A host whose base-directory lookup returns bin and lib. -/
def hostA : Host :=
  { releasesMountpoint := "/iocage/releases", distributionName := "FreeBSD",
    basedirList := ["bin", "lib"] }

/-- A non-basejail jail. -/
def jailNoBase : Jail :=
  { path := "/iocage/jails/test", host := hostA, config := cfgNoBase }

/-- A nullfs basejail jail. -/
def jailBase : Jail :=
  { path := "/iocage/jails/web01", host := hostA, config := cfgBase }

/-- An fstab with no stored entries on a non-basejail jail. -/
def fstabNoBase : Fstab :=
  { jail := jailNoBase, stored := [] }

/-- One explicitly added mount entry. -/
def exLine : FstabLine :=
  { source := "/tank/data", destination := "/iocage/jails/web01/root/data",
    fsType := "nullfs", options := "rw", dump := "0", passnum := "0", comment := none }

/-- An fstab with one explicit entry on the basejail jail. -/
def fstabBase : Fstab :=
  { jail := jailBase, stored := [exLine] }

/-- A freshly constructed configuration with no identity in the input
mapping (`JailConfig({})`). -/
def c4cfg0 : JailConfig :=
  (initConfig [] []).toOption.getD cfgEmpty

/-- State of `c4cfg0` after a bulk update writing a raw, non-canonical UUID
string directly to the `id` key while the identity was unset. -/
def c4cfg1 : JailConfig :=
  (clone c4cfg0 [("id", Value.str "\x7b4f3d2b1a-0000-0000-0000-000000000000\x7d")] false).1

/-- State of `c4cfg1` after a further bulk update containing the alias `name`
with a different value. -/
def c4cfg2 : JailConfig :=
  (clone c4cfg1 [("name", Value.str "other-name")] false).1

/-- Configuration holding a boolean under a plain key, with an empty
defaults cascade. -/
def cfgFoo : JailConfig :=
  { cfgEmpty with data := [("legacy", Value.bool false), ("user_prop", Value.bool true)] }

/-- Same with a raw default registered for the key. -/
def cfgFooD : JailConfig :=
  { cfgFoo with defaults := [("user_prop", Value.str "RAWDEFAULT")] }

/-- A fresh configuration as `__init__` leaves it with no identity. -/
def c10cfg : JailConfig :=
  { cfgEmpty with data := [("legacy", Value.bool false), ("id", Value.vnone)] }

/-- A configuration holding the integer 1 under a plain key. -/
def c10cfgInt : JailConfig :=
  { cfgEmpty with data := [("legacy", Value.bool false), ("count", Value.int 1)] }

/-- An encoding environment where only the legacy UCL file exists
(together with a ZFS mapping that must not be consulted). -/
def envUcl : EncodingEnv :=
  { json := none, ucl := some [("release", Value.str "11.0")],
    zfs := some [("release", Value.str "9.3")] }

/-- An encoding environment with no encoding present. -/
def envNone : EncodingEnv :=
  { json := none, ucl := none, zfs := none }

/-- A configuration whose identity was set through identity assignment
(`_set_name`) to web01. -/
def c4w : JailConfig :=
  (setItem cfgEmpty "name" (Value.str "web01") none).toOption.getD cfgEmpty

theorem Store.get_set_same (d : Store) (k : String) (v : Value) :
    (d.set k v).get? k = some v := by
  induction d with
  | nil => simp [Store.set, Store.get?]
  | cons p rest ih =>
      obtain ⟨k', v'⟩ := p
      by_cases h : k' = k
      · simp [Store.set, h, Store.get?]
      · simp [Store.set, h, Store.get?, ih]

theorem Store.get_set_ne (d : Store) (k k' : String) (v : Value) (h : k' ≠ k) :
    (d.set k v).get? k' = d.get? k' := by
  induction d with
  | nil => simp [Store.set, Store.get?, Ne.symm h]
  | cons p rest ih =>
      obtain ⟨a, b⟩ := p
      by_cases ha : a = k
      · subst ha
        have : a ≠ k' := fun hh => h hh.symm
        simp [Store.set, Store.get?, this]
      · simp [Store.set, ha, Store.get?, ih]

theorem Store.get_del_ne (d : Store) (k k' : String) (h : k' ≠ k) :
    (d.del k).get? k' = d.get? k' := by
  induction d with
  | nil => simp [Store.del]
  | cons p rest ih =>
      obtain ⟨a, b⟩ := p
      by_cases ha : a = k
      · subst ha
        have : a ≠ k' := fun hh => h hh.symm
        simp [Store.del, Store.get?, this]
      · simp [Store.del, ha, Store.get?, ih]

theorem Store.set_set_same (d : Store) (k : String) (v : Value) :
    (d.set k v).set k v = d.set k v := by
  induction d with
  | nil => simp [Store.set]
  | cons p rest ih =>
      obtain ⟨a, b⟩ := p
      by_cases ha : a = k
      · simp [Store.set, ha]
      · simp [Store.set, ha, ih]

theorem Store.not_mem_of_get_none (d : Store) (k : String) (h : Store.get? d k = none) :
    ∀ p ∈ d, p.1 ≠ k := by
  induction d with
  | nil => intro p hp; cases hp
  | cons q rest ih =>
      obtain ⟨a, b⟩ := q
      intro p hp
      rcases List.mem_cons.mp hp with hq | hrest
      · subst hq
        intro hak
        rw [Store.get?, if_pos hak] at h
        cases h
      · by_cases ha : a = k
        · rw [Store.get?, if_pos ha] at h; cases h
        · rw [Store.get?, if_neg ha] at h
          exact ih h p hrest

theorem listCharLeb_total (a : List Char) : ∀ b, listCharLeb a b = true ∨ listCharLeb b a = true := by
  induction a with
  | nil => intro b; left; rfl
  | cons x xs ih =>
      intro b
      cases b with
      | nil => right; rfl
      | cons y ys =>
          by_cases hxy : x = y
          · subst hxy
            rcases ih ys with h | h
            · left; simpa [listCharLeb] using h
            · right; simpa [listCharLeb] using h
          · rcases lt_trichotomy x y with h | h | h
            · left; simp [listCharLeb, hxy, h]
            · exact absurd h hxy
            · right; simp [listCharLeb, Ne.symm hxy, h]

theorem strLeb_total (a b : String) : strLeb a b = true ∨ strLeb b a = true :=
  listCharLeb_total a.toList b.toList

theorem chain_insertSorted (p : String × String) (l : List (String × String))
    (h : List.Chain' (fun x y => strLeb x.1 y.1 = true) l) :
    List.Chain' (fun x y => strLeb x.1 y.1 = true) (insertSorted p l) := by
  induction l with
  | nil => simp [insertSorted]
  | cons q rest ih =>
      rw [insertSorted]
      by_cases hpq : strLeb p.1 q.1 = true
      · rw [if_pos hpq]
        exact List.chain'_cons.mpr ⟨hpq, h⟩
      · rw [if_neg hpq]
        have hqp : strLeb q.1 p.1 = true := (strLeb_total p.1 q.1).resolve_left hpq
        have ih' := ih h.tail
        refine List.chain'_cons'.mpr ⟨?_, ih'⟩
        intro hd hhd
        cases rest with
        | nil =>
            simp [insertSorted] at hhd
            subst hhd; exact hqp
        | cons r rs =>
            rw [insertSorted] at hhd
            by_cases hpr : strLeb p.1 r.1 = true
            · rw [if_pos hpr] at hhd
              simp at hhd
              subst hhd; exact hqp
            · rw [if_neg hpr] at hhd
              simp at hhd
              subst hhd
              exact (List.chain'_cons.mp h).1

theorem chain_sortPairs (l : List (String × String)) :
    List.Chain' (fun x y => strLeb x.1 y.1 = true) (sortPairs l) := by
  induction l with
  | nil => simp [sortPairs]
  | cons p rest ih => exact chain_insertSorted p _ ih

/-- C8: `ConfigJSON.read` returns an empty mapping on every failure —
file absent, unreadable content, or content that fails to parse — so a
first run and a corrupted file are indistinguishable to the caller and
no error is raised; only a valid file yields its mapping. -/
theorem claim_C8_read_empty_on_failure :
    ∀ (s : String) (m : Store),
      configRead FileState.absent = []
      ∧ configRead FileState.unreadable = []
      ∧ configRead (FileState.corrupt s) = []
      ∧ configRead (FileState.corrupt s) = configRead FileState.absent
      ∧ configRead (FileState.valid m) = m := by
  intro s m
  exact ⟨rfl, rfl, rfl, rfl, rfl⟩

/-- C9: writing a mapping to the structured encoding is deterministic
and idempotent: the file content after `write` never depends on the
previous content (full replace, no residual bytes), two consecutive
writes of the same mapping are byte-identical, keys are serialized in
sorted order, and values are coerced to canonical strings (booleans to
yes/no, absent to none) with 4-space-indented formatting, as the
concrete rendering shows. -/
theorem claim_C9_write_deterministic :
    ∀ (pre pre2 : String) (d : Store),
      configWrite pre d = configWrite pre2 d
      ∧ configWrite (configWrite pre d) d = configWrite pre d
      ∧ List.Chain' (fun x y => strLeb x.1 y.1 = true) (to_json_pairs d)
      ∧ to_json [("b", Value.vnone), ("a", Value.bool true), ("c", Value.bool false)]
          = "\x7b\n    \"a\": \"yes\",\n    \"b\": \"none\",\n    \"c\": \"no\"\n\x7d" := by
  intro pre pre2 d
  exact ⟨rfl, rfl, chain_sortPairs _, rfl⟩

/-- C3: `read()` probes the three encodings in the fixed order
structured JSON file, legacy UCL file, ZFS metadata properties; the
first encoding that exists wins and the others are neither probed nor
loaded; a JSON hit sets the legacy flag to false, a UCL or ZFS hit
sets it to true; the tag of the used encoding is returned, and when no
encoding exists `none` is returned with the configuration unchanged. -/
theorem claim_C3_read_probe_order :
    ∀ (env : EncodingEnv) (cfg : JailConfig),
      (∀ m, env.json = some m →
        readConfig env cfg
          = (some "json", setLegacyFlag (applyStore cfg m) false,
             [ReadEvent.checkJson, ReadEvent.loadJson])
        ∧ (readConfig env cfg).2.1.data.get? "legacy" = some (Value.bool false))
      ∧ (∀ m, env.json = none → env.ucl = some m →
        readConfig env cfg
          = (some "ucl", setLegacyFlag (applyStore cfg m) true,
             [ReadEvent.checkJson, ReadEvent.checkUcl, ReadEvent.loadUcl])
        ∧ (readConfig env cfg).2.1.data.get? "legacy" = some (Value.bool true))
      ∧ (∀ m, env.json = none → env.ucl = none → env.zfs = some m →
        readConfig env cfg
          = (some "zfs", setLegacyFlag (applyStore cfg m) true,
             [ReadEvent.checkJson, ReadEvent.checkUcl, ReadEvent.checkZfs,
              ReadEvent.loadZfs])
        ∧ (readConfig env cfg).2.1.data.get? "legacy" = some (Value.bool true))
      ∧ (env.json = none → env.ucl = none → env.zfs = none →
        readConfig env cfg
          = (none, cfg, [ReadEvent.checkJson, ReadEvent.checkUcl, ReadEvent.checkZfs])) := by
  intro env cfg
  refine ⟨?_, ?_, ?_, ?_⟩
  · intro m hj
    have h1 : readConfig env cfg
        = (some "json", setLegacyFlag (applyStore cfg m) false,
           [ReadEvent.checkJson, ReadEvent.loadJson]) := by
      simp [readConfig, hj]
    refine ⟨h1, ?_⟩
    rw [h1]
    exact Store.get_set_same _ _ _
  · intro m hj hu
    have h1 : readConfig env cfg
        = (some "ucl", setLegacyFlag (applyStore cfg m) true,
           [ReadEvent.checkJson, ReadEvent.checkUcl, ReadEvent.loadUcl]) := by
      simp [readConfig, hj, hu]
    refine ⟨h1, ?_⟩
    rw [h1]
    exact Store.get_set_same _ _ _
  · intro m hj hu hz
    have h1 : readConfig env cfg
        = (some "zfs", setLegacyFlag (applyStore cfg m) true,
           [ReadEvent.checkJson, ReadEvent.checkUcl, ReadEvent.checkZfs,
            ReadEvent.loadZfs]) := by
      simp [readConfig, hj, hu, hz]
    refine ⟨h1, ?_⟩
    rw [h1]
    exact Store.get_set_same _ _ _
  · intro hj hu hz
    simp [readConfig, hj, hu, hz]

/-- C3 witness: with only the legacy UCL mapping present (and a ZFS
mapping that must not be consulted), `read()` reports the ucl tag,
sets the legacy flag, and neither probes nor loads ZFS. -/
theorem claim_C3_read_probe_order_witness :
    readConfig envUcl cfgEmpty
      = (some "ucl", setLegacyFlag (applyStore cfgEmpty [("release", Value.str "11.0")]) true,
         [ReadEvent.checkJson, ReadEvent.checkUcl, ReadEvent.loadUcl])
    ∧ (readConfig envUcl cfgEmpty).2.1.data.get? "legacy" = some (Value.bool true) := by
  exact (claim_C3_read_probe_order envUcl cfgEmpty).2.1 [("release", Value.str "11.0")] rfl rfl

/-- C2 (code bug): `get_string` can never render a stored value.  The
chain `get` resolves the plain-store boolean, and the spec-intended
canonical rendering of that value is "yes", but `get_string` falls
through every tier (its `stringify` evaluates `libiocage.helpers`,
which raises) and either raises `KeyError` (empty defaults cascade) or
returns the raw, unrendered default. -/
theorem claim_C2_get_string_broken :
    getItem cfgFoo "user_prop" = .ok (Value.bool true)
    ∧ to_string (Value.bool true) "yes" "no" "none" = "yes"
    ∧ getString cfgFoo "user_prop" = .error .keyError
    ∧ getString cfgFooD "user_prop" = .ok (Value.str "RAWDEFAULT") := by
  refine ⟨by decide, rfl, by decide, by decide⟩

theorem not_mem_of_ne_dest (L : List FstabLine) (l : FstabLine)
    (h : ∀ e ∈ L, e.destination ≠ l.destination) : l ∉ L :=
  fun hm => h l hm rfl

/-- C1 counterexample: with an empty fstab, `add(srcA, "/x")` followed
by `add(srcB, "/x")` leaves two stored entries for destination "/x",
not one — `FstabLine` hashes by destination but keeps dict equality,
so the set retains both records; likewise parsing two six-field lines
with the same destination logs the duplicate warning but stores both
entries. -/
theorem claim_C1_counterexample :
    ¬(((fstabAdd (fstabAdd fstabNoBase "srcA" "/x" "nullfs" "ro" "0" "0" none)
          "srcB" "/x" "nullfs" "ro" "0" "0" none).stored.filter
          (fun e => e.destination == "/x")).length = 1)
    ∧ ((fstabAdd (fstabAdd fstabNoBase "srcA" "/x" "nullfs" "ro" "0" "0" none)
          "srcB" "/x" "nullfs" "ro" "0" "0" none).stored.filter
          (fun e => e.destination == "/x")).length = 2
    ∧ (parseLines fstabNoBase "srcA /x nullfs ro 0 0\nsrcB /x nullfs ro 0 0" true).toOption.map
        (fun p => ((p.1.stored.filter (fun e => e.destination == "/x")).length, p.2))
        = some (2, [FstabLog.duplicate "/x"]) := by
  refine ⟨by decide, by decide, by decide⟩

/-- C1 (amended): fstab entries are not unique per destination.
`add(source=A, "/x")` then `add(source=B, "/x")` retains both stored
entries (set membership uses full-record equality, so the second add
appends rather than replaces); parsing text with two six-field lines
sharing a destination logs a duplicate-destination warning but stores
both entries. -/
theorem claim_C1_amended :
    ∀ (f : Fstab) (A B dest : String),
      A ≠ B → (∀ e ∈ f.stored, e.destination ≠ dest) →
      (fstabAdd (fstabAdd f A dest "nullfs" "ro" "0" "0" none)
          B dest "nullfs" "ro" "0" "0" none).stored
        = f.stored ++
          [{ source := A, destination := dest, fsType := "nullfs", options := "ro",
             dump := "0", passnum := "0", comment := none },
           { source := B, destination := dest, fsType := "nullfs", options := "ro",
             dump := "0", passnum := "0", comment := none }]
      ∧ (parseLines fstabNoBase "srcA /x nullfs ro 0 0\nsrcB /x nullfs ro 0 0" true).toOption.map
          (fun p => (p.1.stored, p.2))
          = some
            ([{ source := "srcA", destination := "/x", fsType := "nullfs", options := "ro",
                dump := "0", passnum := "0", comment := none },
              { source := "srcB", destination := "/x", fsType := "nullfs", options := "ro",
                dump := "0", passnum := "0", comment := none }],
             [FstabLog.duplicate "/x"]) := by
  intro f A B dest hAB hfresh
  refine ⟨?_, by decide⟩
  set l1 : FstabLine :=
    { source := A, destination := dest, fsType := "nullfs", options := "ro",
      dump := "0", passnum := "0", comment := none } with hl1
  set l2 : FstabLine :=
    { source := B, destination := dest, fsType := "nullfs", options := "ro",
      dump := "0", passnum := "0", comment := none } with hl2
  have hc1 : l1 ∉ f.stored :=
    not_mem_of_ne_dest f.stored l1 (fun e he => hfresh e he)
  have hc2 : l2 ∉ f.stored :=
    not_mem_of_ne_dest f.stored l2 (fun e he => hfresh e he)
  have hne : ¬(l1 = l2) := by
    intro h
    exact hAB (congrArg FstabLine.source h)
  have step1 : (fstabAdd f A dest "nullfs" "ro" "0" "0" none).stored = f.stored ++ [l1] := by
    show (addLine f l1).stored = f.stored ++ [l1]
    unfold addLine
    rw [if_neg (fun hc => hc1 (List.mem_of_elem_eq_true hc))]
  show (addLine (fstabAdd f A dest "nullfs" "ro" "0" "0" none) l2).stored = _
  unfold addLine
  rw [if_neg ?hcontains]
  case hcontains =>
    intro hc
    rw [step1] at hc
    rcases List.mem_append.mp (List.mem_of_elem_eq_true hc) with hmem | hmem
    · exact hc2 hmem
    · simp at hmem
      exact hne hmem.symm
  simp [step1, List.append_assoc]

/-- C1 amended, witness at the empty fstab: both added entries for
"/x" are retained, the second one (source srcB) last. -/
theorem claim_C1_amended_witness :
    (fstabAdd (fstabAdd fstabNoBase "srcA" "/x" "nullfs" "ro" "0" "0" none)
        "srcB" "/x" "nullfs" "ro" "0" "0" none).stored
      = fstabNoBase.stored ++
        [{ source := "srcA", destination := "/x", fsType := "nullfs", options := "ro",
           dump := "0", passnum := "0", comment := none },
         { source := "srcB", destination := "/x", fsType := "nullfs", options := "ro",
           dump := "0", passnum := "0", comment := none }] :=
  (claim_C1_amended fstabNoBase "srcA" "srcB" "/x" (by decide)
    (by intro e he; simp [fstabNoBase] at he)).1

/-- C5: on identity assignment, a name failing the character check is
parsed as a UUID; when that also fails the assignment raises
`InvalidResourceName` (`InvalidJailName`); a valid UUID string is
accepted via the fallback (stored in canonical form) even when the
character check rejects it; a name passing the check is stored as the
identity; and re-assigning the already-set identity to the same raw
value leaves the configuration unchanged. -/
theorem claim_C5_name_validation :
    ∀ (cfg : JailConfig) (s : String) (kw : Option Value),
      parseUserInput (.str s) = .str s →
      ((validate_name s = false → uuidNormalize s = none →
          setItem cfg "name" (.str s) kw = .error .invalidJailName)
       ∧ (∀ c, validate_name s = false → uuidNormalize s = some c →
          setItem cfg "name" (.str s) kw
            = .ok { cfg with data := cfg.data.set "id" (parseUserInput (.str c)) })
       ∧ (validate_name s = true →
          setItem cfg "name" (.str s) kw
            = .ok { cfg with data := cfg.data.set "id" (.str s) })
       ∧ (∀ cfg', setItem cfg "name" (.str s) kw = .ok cfg' →
          setItem cfg' "name" (.str s) kw = .ok cfg')) := by
  intro cfg s kw hp
  have hset : ∀ (c : JailConfig), setItem c "name" (.str s) kw = setName c (.str s) := by
    intro c
    show setName c (parseUserInput (.str s)) = setName c (.str s)
    rw [hp]
  refine ⟨?_, ?_, ?_, ?_⟩
  · intro hv hu
    rw [hset]
    simp [setName, hv, hu]
  · intro c hv hu
    rw [hset]
    simp [setName, hv, hu]
  · intro hv
    rw [hset]
    simp [setName, hv, hp]
  · intro cfg' hok
    have hok' : setName cfg (.str s) = .ok cfg' := by rw [hset] at hok; exact hok
    rw [hset]
    by_cases hv : validate_name s = true
    · simp [setName, hv, hp] at hok' ⊢
      rw [← hok']
      simp [Store.set_set_same]
    · have hv' : validate_name s = false := by
        cases hb : validate_name s
        · rfl
        · exact absurd hb hv
      cases hu : uuidNormalize s with
      | none => simp [setName, hv', hu] at hok'
      | some c =>
          simp [setName, hv', hu] at hok' ⊢
          rw [← hok']
          simp [Store.set_set_same]

/-- C5 witness: "bad name" fails both checks and raises; "web01" is
accepted as the identity; a braced UUID literal is rejected by the
character check but accepted via the UUID fallback in canonical
lowercase form; re-assigning "web01" to the configuration that
already carries it is a no-op. -/
theorem claim_C5_name_validation_witness :
    setItem cfgEmpty "name" (Value.str "bad name") none = .error .invalidJailName
    ∧ setItem cfgEmpty "name"
        (Value.str "\x7b4F3D2B1A-0000-0000-0000-000000000000\x7d") none
      = .ok { cfgEmpty with data := cfgEmpty.data.set "id" (parseUserInput (.str "4f3d2b1a-0000-0000-0000-000000000000")) }
    ∧ setItem cfgEmpty "name" (Value.str "web01") none
      = .ok { cfgEmpty with data := cfgEmpty.data.set "id" (.str "web01") }
    ∧ setItem { cfgEmpty with data := cfgEmpty.data.set "id" (.str "web01") }
        "name" (Value.str "web01") none
      = .ok { cfgEmpty with data := cfgEmpty.data.set "id" (.str "web01") } := by
  have h1 := (claim_C5_name_validation cfgEmpty "bad name" none (by decide)).1
    (by decide) (by decide)
  have h2 := (claim_C5_name_validation cfgEmpty
      "\x7b4F3D2B1A-0000-0000-0000-000000000000\x7d" none (by decide)).2.1
    "4f3d2b1a-0000-0000-0000-000000000000" (by decide) (by decide)
  have h3 := (claim_C5_name_validation cfgEmpty "web01" none (by decide)).2.2.1
    (by decide)
  have h4 := (claim_C5_name_validation { cfgEmpty with
      data := cfgEmpty.data.set "id" (.str "web01") } "web01" none (by decide)).2.2.1
    (by decide)
  refine ⟨h1, h2, h3, ?_⟩
  rw [h4]
  simp [Store.set_set_same]

/-- C6: whenever an assignment to ip6_addr completes, the run-control
sink's rtsold_enable flag equals exactly the presence of the
router-advertisement-acceptance token "accept_rtadv" in the string
form of the assigned (coerced) value: true if and only if the token
occurs, false otherwise. -/
theorem claim_C6_rtsold_flag :
    ∀ (cfg : JailConfig) (v : Value) (kw : Option Value) (cfg' : JailConfig),
      setItem cfg "ip6_addr" v kw = .ok cfg' →
      cfg'.rcConf.get? "rtsold_enable"
          = some (.bool (strContains (pyStr (parseUserInput v)) "accept_rtadv"))
      ∧ (cfg'.rcConf.get? "rtsold_enable" = some (.bool true)
          ↔ strContains (pyStr (parseUserInput v)) "accept_rtadv" = true) := by
  intro cfg v kw cfg' h
  have h' : setIp6Addr cfg (parseUserInput v) kw = .ok cfg' := h
  cases kw with
  | none =>
      simp [setIp6Addr, throw, throwThe, MonadExceptOf.throw, bind, Except.bind,
        Functor.map, Except.map] at h'
  | some kv =>
      simp only [setIp6Addr, bind, Except.bind, pure, Except.pure] at h'
      split at h'
      · cases h'
      · rw [Except.ok.injEq] at h'
        have heq : cfg'.rcConf.get? "rtsold_enable"
            = some (.bool (strContains (pyStr (parseUserInput v)) "accept_rtadv")) := by
          rw [← h']
          exact Store.get_set_same _ _ _
        refine ⟨heq, ?_⟩
        rw [heq]
        cases strContains (pyStr (parseUserInput v)) "accept_rtadv" <;> simp

/-- C6 witness: assigning "vtnet0|accept_rtadv" (token present) sets
the flag true; assigning "vtnet0|2001:db8::1/64" (no token) sets it
false. -/
theorem claim_C6_rtsold_flag_witness :
    ((setItem cfgEmpty "ip6_addr" (Value.str "vtnet0|accept_rtadv")
        (some (Value.bool false))).toOption.getD cfgEmpty).rcConf.get? "rtsold_enable"
      = some (Value.bool true)
    ∧ ((setItem cfgEmpty "ip6_addr" (Value.str "vtnet0|2001:db8::1/64")
        (some (Value.bool false))).toOption.getD cfgEmpty).rcConf.get? "rtsold_enable"
      = some (Value.bool false) := by
  have h1 := (claim_C6_rtsold_flag cfgEmpty (Value.str "vtnet0|accept_rtadv")
      (some (Value.bool false))
      ((setItem cfgEmpty "ip6_addr" (Value.str "vtnet0|accept_rtadv")
        (some (Value.bool false))).toOption.getD cfgEmpty) (by decide)).1
  have h2 := (claim_C6_rtsold_flag cfgEmpty (Value.str "vtnet0|2001:db8::1/64")
      (some (Value.bool false))
      ((setItem cfgEmpty "ip6_addr" (Value.str "vtnet0|2001:db8::1/64")
        (some (Value.bool false))).toOption.getD cfgEmpty) (by decide)).1
  exact ⟨h1, h2⟩

theorem addLine_comment_sound (f : Fstab) (nl : FstabLine)
    (hpre : ∀ e ∈ f.stored, e.comment ≠ some "iocage-auto")
    (hnl : nl.comment ≠ some "iocage-auto") :
    ∀ e ∈ (addLine f nl).stored, e.comment ≠ some "iocage-auto" := by
  unfold addLine
  split
  · exact hpre
  · intro e he
    rcases List.mem_append.mp he with hmem | hmem
    · exact hpre e hmem
    · simp at hmem
      rw [hmem]
      exact hnl

theorem exceptBind_ok {α β : Type} {x : Except PyErr α} {g : α → Except PyErr β} {b : β}
    (h : (x >>= g) = .ok b) : ∃ a, x = .ok a ∧ g a = .ok b := by
  cases x with
  | error e => simp [bind, Except.bind] at h
  | ok a => exact ⟨a, rfl, by simpa [bind, Except.bind] using h⟩

theorem parseFstabFields_no_auto (f : Fstab) (logs : List FstabLog) (body0 : String)
    (comment : Option String) (f1 : Fstab) (logs1 : List FstabLog)
    (hok : parseFstabFields f logs body0 comment = .ok (f1, logs1))
    (hpre : ∀ e ∈ f.stored, e.comment ≠ some "iocage-auto")
    (hc : comment ≠ some "iocage-auto") :
    ∀ e ∈ f1.stored, e.comment ≠ some "iocage-auto" := by
  unfold parseFstabFields at hok
  dsimp only at hok
  split at hok
  · injection hok with hp
    rw [Prod.mk.injEq] at hp
    rw [← hp.1]
    exact hpre
  · split at hok
    · obtain ⟨dup, hdup, hg⟩ := exceptBind_ok hok
      injection hg with hp
      rw [Prod.mk.injEq] at hp
      rw [← hp.1]
      exact addLine_comment_sound f _ hpre hc
    · injection hok with hp
      rw [Prod.mk.injEq] at hp
      rw [← hp.1]
      exact hpre

theorem parseFstabLine_no_auto (f : Fstab) (logs : List FstabLog) (line : String)
    (f1 : Fstab) (logs1 : List FstabLog)
    (hok : parseFstabLine f logs line true = .ok (f1, logs1))
    (hpre : ∀ e ∈ f.stored, e.comment ≠ some "iocage-auto") :
    ∀ e ∈ f1.stored, e.comment ≠ some "iocage-auto" := by
  unfold parseFstabLine at hok
  rcases hsp : splitOnce line '#' with _ | ⟨pre, post⟩
  all_goals rw [hsp] at hok
  · exact parseFstabFields_no_auto f logs line none f1 logs1 hok hpre (by simp)
  · simp only at hok
    split at hok
    · injection hok with hp
      rw [Prod.mk.injEq] at hp
      rw [← hp.1]
      exact hpre
    · rename_i hcond
      refine parseFstabFields_no_auto f logs pre _ f1 logs1 hok hpre ?_
      intro hcomment
      apply hcond
      refine ⟨trivial, ?_⟩
      exact Option.some.inj hcomment

theorem parseLinesGo_no_auto (lines : List String) :
    ∀ (f : Fstab) (logs : List FstabLog) (f1 : Fstab) (logs1 : List FstabLog),
      parseLinesGo f logs lines true = .ok (f1, logs1) →
      (∀ e ∈ f.stored, e.comment ≠ some "iocage-auto") →
      ∀ e ∈ f1.stored, e.comment ≠ some "iocage-auto" := by
  induction lines with
  | nil =>
      intro f logs f1 logs1 hok hpre
      unfold parseLinesGo at hok
      injection hok with hp
      rw [Prod.mk.injEq] at hp
      rw [← hp.1]
      exact hpre
  | cons l rest ih =>
      intro f logs f1 logs1 hok hpre
      unfold parseLinesGo at hok
      obtain ⟨⟨f2, logs2⟩, hline, hrest⟩ := exceptBind_ok hok
      exact ih f2 logs2 f1 logs1 hrest
        (parseFstabLine_no_auto f logs l f2 logs2 hline hpre)

/-- C7: for a basejail of nullfs type, iterating the fstab yields the
explicit entries followed by exactly one generated entry per base
directory — each a read-only nullfs mount of
releaseMount/clonedRelease/root/dir onto resourcePath/root/dir with
comment iocage-auto; when the resource is not a nullfs basejail no
generated entry appears; and re-parsing text with ignoreAutoCreated
never imports a line whose comment equals iocage-auto. -/
theorem claim_C7_basejail_generation :
    ∀ (f : Fstab) (bj cr : Value) (text : String) (f' : Fstab) (logs : List FstabLog),
      (getItem f.jail.config "basejail" = .ok bj → truthy bj = true →
        getItem f.jail.config "basejail_type" = .ok (Value.str "nullfs") →
        getItem f.jail.config "cloned_release" = .ok cr →
        iterLines f = .ok (f.stored ++ f.jail.host.basedirList.map (mkAutoLine f cr)))
      ∧ (∀ bjt, getItem f.jail.config "basejail" = .ok bj →
        getItem f.jail.config "basejail_type" = .ok bjt →
        ¬(truthy bj = true ∧ bjt = Value.str "nullfs") →
        iterLines f = .ok f.stored)
      ∧ (parseLines f text true = .ok (f', logs) →
        ∀ e ∈ f'.stored, e.comment ≠ some "iocage-auto") := by
  intro f bj cr text f' logs
  refine ⟨?_, ?_, ?_⟩
  · intro hbj htr hbjt hcr
    have hbl : basejailLines f = .ok (f.jail.host.basedirList.map (mkAutoLine f cr)) := by
      unfold basejailLines
      rw [hbj, hbjt, hcr]
      simp [bind, Except.bind, pure, Except.pure, htr, mkAutoLine]
    unfold iterLines
    rw [hbl]
    simp [bind, Except.bind, pure, Except.pure]
  · intro bjt hbj hbjt hcond
    have hbl : basejailLines f = .ok [] := by
      unfold basejailLines
      rw [hbj, hbjt]
      simp only [bind, Except.bind]
      rw [if_pos (show ¬(truthy bj ∧ bjt = Value.str "nullfs") from
        fun hand => hcond ⟨hand.1, hand.2⟩)]
      rfl
    unfold iterLines
    rw [hbl]
    simp [bind, Except.bind, pure, Except.pure]
  · intro hok
    exact parseLinesGo_no_auto _ _ _ _ _ hok (by intro e he; cases he)

/-- C7 witness: on the nullfs basejail fixture (cloned release 13.0,
base directories bin and lib), iteration yields the explicit entry
followed by the two generated iocage-auto entries. -/
theorem claim_C7_basejail_generation_witness :
    iterLines fstabBase
      = .ok (fstabBase.stored
          ++ fstabBase.jail.host.basedirList.map (mkAutoLine fstabBase (Value.str "13.0"))) :=
  (claim_C7_basejail_generation fstabBase (Value.bool true) (Value.str "13.0")
      "" fstabBase []).1 (by decide) (by decide) (by decide) (by decide)

/-- C10: `set(key, value)` reports change by comparing the rendered
string of the user-visible value before and after the assignment:
it returns true exactly when the two renderings differ, hence false
whenever they agree (even if the value's type changed), and false
whenever the key is unreadable both before and after the call (even
if the underlying plain store was modified). -/
theorem claim_C10_set_change_reporting :
    ∀ (cfg : JailConfig) (k : String) (v : Value) (kw : Option Value)
      (cfg' : JailConfig) (b : Bool),
      isAttrName k = false →
      setReport cfg k v kw = .ok (cfg', b) →
      ((b = true ↔ userRender cfg k ≠ userRender cfg' k)
       ∧ (userRender cfg k = userRender cfg' k → b = false)
       ∧ (∀ e e', getItemUser cfg k = .error e → getItemUser cfg' k = .error e' →
           b = false)) := by
  intro cfg k v kw cfg' b hattr h
  unfold setReport at h
  obtain ⟨c2, hsi, hrest⟩ := exceptBind_ok h
  simp only [pure, Except.pure, Except.ok.injEq, Prod.mk.injEq] at hrest
  obtain ⟨hc, hb⟩ := hrest
  rw [hc] at hb
  refine ⟨?_, ?_, ?_⟩
  · rw [← hb]
    simp
  · intro heq
    rw [← hb]
    simp [heq]
  · intro e e' h1 h2
    have hr1 : userRender cfg k = none := by unfold userRender; rw [h1]
    have hr2 : userRender cfg' k = none := by unfold userRender; rw [h2]
    rw [← hb, hr1, hr2]
    simp

/-- C10 witness: on a fresh configuration, `set("name", "web01")`
returns false although it stores the new identity (the key `name` is
unreadable through `__getitem_user` both before and after); and on a
store holding the integer 1, `set("count", "1")` returns false
although the stored type changes from integer to string, because both
render to "1". -/
theorem claim_C10_set_change_reporting_witness :
    (setReport c10cfg "name" (Value.str "web01") none).toOption.map Prod.snd = some false
    ∧ ((setReport c10cfg "name" (Value.str "web01") none).toOption.map
        (fun p => p.1.data.get? "id")) = some (some (Value.str "web01"))
    ∧ c10cfg.data.get? "id" = some Value.vnone
    ∧ (setReport c10cfgInt "count" (Value.str "1") none).toOption.map Prod.snd = some false
    ∧ c10cfgInt.data.get? "count" = some (Value.int 1)
    ∧ ((setReport c10cfgInt "count" (Value.str "1") none).toOption.map
        (fun p => p.1.data.get? "count")) = some (some (Value.str "1")) := by
  have h1 := claim_C10_set_change_reporting c10cfg "name" (Value.str "web01") none
      ((setReport c10cfg "name" (Value.str "web01") none).toOption.getD (cfgEmpty, true)).1
      ((setReport c10cfg "name" (Value.str "web01") none).toOption.getD (cfgEmpty, true)).2
      (by decide) (by decide)
  have hb1 : ((setReport c10cfg "name" (Value.str "web01") none).toOption.getD
      (cfgEmpty, true)).2 = false := h1.2.2 .keyError .keyError (by decide) (by decide)
  have h2 := claim_C10_set_change_reporting c10cfgInt "count" (Value.str "1") none
      ((setReport c10cfgInt "count" (Value.str "1") none).toOption.getD (cfgEmpty, true)).1
      ((setReport c10cfgInt "count" (Value.str "1") none).toOption.getD (cfgEmpty, true)).2
      (by decide) (by decide)
  have hb2 : ((setReport c10cfgInt "count" (Value.str "1") none).toOption.getD
      (cfgEmpty, true)).2 = false := h2.2.1 (by decide)
  refine ⟨?_, by decide, by decide, ?_, by decide, by decide⟩
  · rw [show (setReport c10cfg "name" (Value.str "web01") none).toOption.map Prod.snd
        = some (((setReport c10cfg "name" (Value.str "web01") none).toOption.getD
            (cfgEmpty, true)).2) from by decide]
    rw [hb1]
  · rw [show (setReport c10cfgInt "count" (Value.str "1") none).toOption.map Prod.snd
        = some (((setReport c10cfgInt "count" (Value.str "1") none).toOption.getD
            (cfgEmpty, true)).2) from by decide]
    rw [hb2]

theorem setClonejail_id (cfg : JailConfig) (v : Value) :
    (setClonejail cfg v).data.get? "id" = cfg.data.get? "id" :=
  Store.get_set_ne _ _ _ _ (by decide)

theorem setBasejail_id (cfg : JailConfig) (v : Value) (cfg' : JailConfig)
    (h : setBasejail cfg v = .ok cfg') :
    cfg'.data.get? "id" = cfg.data.get? "id" := by
  unfold setBasejail at h
  obtain ⟨lv, hlv, hg⟩ := exceptBind_ok h
  simp only [pure, Except.pure] at hg
  split at hg <;>
    (injection hg with h1; rw [← h1]; exact Store.get_set_ne _ _ _ _ (by decide))

theorem setType_id (cfg : JailConfig) (v : Value) (cfg' : JailConfig)
    (h : setType cfg v = .ok cfg') :
    cfg'.data.get? "id" = cfg.data.get? "id" := by
  unfold setType at h
  split at h
  · obtain ⟨c1, hc1, hg⟩ := exceptBind_ok h
    simp only [pure, Except.pure] at hg
    injection hg with h1
    rw [← h1]
    rw [Store.get_set_ne _ _ _ _ (by decide)]
    rw [setClonejail_id]
    exact setBasejail_id cfg _ c1 hc1
  · split at h
    · obtain ⟨c1, hc1, hg⟩ := exceptBind_ok h
      simp only [pure, Except.pure] at hg
      injection hg with h1
      rw [← h1]
      rw [Store.get_set_ne _ _ _ _ (by decide)]
      rw [setClonejail_id]
      exact setBasejail_id cfg _ c1 hc1
    · injection h with h1
      rw [← h1]
      exact Store.get_set_ne _ _ _ _ (by decide)

theorem setIp4Addr_id (cfg : JailConfig) (v : Value) (cfg' : JailConfig)
    (h : setIp4Addr cfg v = .ok cfg') :
    cfg'.data.get? "id" = cfg.data.get? "id" := by
  unfold setIp4Addr at h
  obtain ⟨hh, hah, hg⟩ := exceptBind_ok h
  simp only [pure, Except.pure] at hg
  injection hg with h1
  rw [← h1]
  exact Store.get_set_ne _ _ _ _ (by decide)

theorem setIp6Addr_id (cfg : JailConfig) (v : Value) (kw : Option Value) (cfg' : JailConfig)
    (h : setIp6Addr cfg v kw = .ok cfg') :
    cfg'.data.get? "id" = cfg.data.get? "id" := by
  unfold setIp6Addr at h
  cases kw with
  | none =>
      simp [throw, throwThe, MonadExceptOf.throw, bind, Except.bind] at h
  | some kv =>
      dsimp only at h
      simp only [bind, Except.bind, pure, Except.pure] at h
      split at h
      · cases h
      · injection h with h1
        rw [← h1]
        exact Store.get_set_ne _ _ _ _ (by decide)

theorem setInterfaces_id (cfg : JailConfig) (v : Value) (cfg' : JailConfig)
    (h : setInterfaces cfg v = .ok cfg') :
    cfg'.data.get? "id" = cfg.data.get? "id" := by
  unfold setInterfaces at h
  obtain ⟨hh, hah, hg⟩ := exceptBind_ok h
  simp only [pure, Except.pure] at hg
  injection hg with h1
  rw [← h1]
  exact Store.get_set_ne _ _ _ _ (by decide)

theorem setJailZfsDataset_id (cfg : JailConfig) (v : Value) (cfg' : JailConfig)
    (h : setJailZfsDataset cfg v = .ok cfg') :
    cfg'.data.get? "id" = cfg.data.get? "id" := by
  unfold setJailZfsDataset at h
  split at h
  · injection h with h1; rw [← h1]; exact Store.get_set_ne _ _ _ _ (by decide)
  · injection h with h1; rw [← h1]; exact Store.get_set_ne _ _ _ _ (by decide)
  · cases h

theorem setJailZfs_id (cfg : JailConfig) (v : Value) (cfg' : JailConfig)
    (h : setJailZfs cfg v = .ok cfg') :
    cfg'.data.get? "id" = cfg.data.get? "id" := by
  unfold setJailZfs at h
  split at h
  · split at h
    · injection h with h1; rw [← h1]; exact Store.get_del_ne _ _ _ (by decide)
    · cases h
  · injection h with h1; rw [← h1]; exact Store.get_set_ne _ _ _ _ (by decide)

theorem setResolver_id (cfg : JailConfig) (v : Value) (cfg' : JailConfig)
    (h : setResolver cfg v = .ok cfg') :
    cfg'.data.get? "id" = cfg.data.get? "id" := by
  unfold setResolver at h
  dsimp only at h
  split at h
  · simp only [bind, Except.bind, pure, Except.pure] at h
    injection h with h1
    rw [← h1]
    exact Store.get_set_ne _ _ _ _ (by decide)
  · simp only [bind, Except.bind, pure, Except.pure] at h
    injection h with h1
    rw [← h1]
    exact Store.get_set_ne _ _ _ _ (by decide)
  · simp [throw, throwThe, MonadExceptOf.throw, bind, Except.bind] at h

theorem setLoginFlags_id (cfg : JailConfig) (v : Value) (cfg' : JailConfig)
    (h : setLoginFlags cfg v = .ok cfg') :
    cfg'.data.get? "id" = cfg.data.get? "id" := by
  unfold setLoginFlags at h
  split at h
  · injection h with h1; rw [← h1]; exact Store.get_del_ne _ _ _ (by decide)
  · injection h with h1; rw [← h1]; exact Store.get_set_ne _ _ _ _ (by decide)
  · injection h with h1; rw [← h1]; exact Store.get_set_ne _ _ _ _ (by decide)
  · cases h

theorem setTags_id (cfg : JailConfig) (v : Value) (cfg' : JailConfig)
    (h : setTags cfg v = .ok cfg') :
    cfg'.data.get? "id" = cfg.data.get? "id" := by
  unfold setTags at h
  split at h
  · injection h with h1; rw [← h1]
  · injection h with h1; rw [← h1]
  · cases h

set_option maxHeartbeats 1000000 in
theorem setItem_preserves_id (cfg : JailConfig) (k : String) (v : Value)
    (kw : Option Value) (cfg2 : JailConfig)
    (hname : k ≠ "name") (hid : k ≠ "id")
    (h : setItem cfg k v kw = .ok cfg2) :
    cfg2.data.get? "id" = cfg.data.get? "id" := by
  unfold setItem at h
  dsimp only at h
  rw [if_neg hname] at h
  by_cases hk2 : k = "type"
  · rw [if_pos hk2] at h
    exact setType_id cfg _ cfg2 h
  rw [if_neg hk2] at h
  by_cases hk3 : k = "basejail"
  · rw [if_pos hk3] at h
    exact setBasejail_id cfg _ cfg2 h
  rw [if_neg hk3] at h
  by_cases hk4 : k = "clonejail"
  · rw [if_pos hk4] at h
    injection h with h1
    rw [← h1]
    exact setClonejail_id cfg _
  rw [if_neg hk4] at h
  by_cases hk5 : k = "ip4_addr"
  · rw [if_pos hk5] at h
    exact setIp4Addr_id cfg _ cfg2 h
  rw [if_neg hk5] at h
  by_cases hk6 : k = "ip6_addr"
  · rw [if_pos hk6] at h
    exact setIp6Addr_id cfg _ kw cfg2 h
  rw [if_neg hk6] at h
  by_cases hk7 : k = "interfaces"
  · rw [if_pos hk7] at h
    exact setInterfaces_id cfg _ cfg2 h
  rw [if_neg hk7] at h
  by_cases hk8 : k = "defaultrouter" ∨ k = "defaultrouter6"
  · rw [if_pos hk8] at h
    injection h with h1
    rw [← h1]
    unfold setDefaultrouter
    exact Store.get_set_ne _ _ _ _ (Ne.symm hid)
  rw [if_neg hk8] at h
  by_cases hk9 : k = "vnet"
  · rw [if_pos hk9] at h
    injection h with h1
    rw [← h1]
    exact Store.get_set_ne _ _ _ _ (by decide)
  rw [if_neg hk9] at h
  by_cases hk10 : k = "jail_zfs_dataset"
  · rw [if_pos hk10] at h
    exact setJailZfsDataset_id cfg _ cfg2 h
  rw [if_neg hk10] at h
  by_cases hk11 : k = "jail_zfs"
  · rw [if_pos hk11] at h
    exact setJailZfs_id cfg _ cfg2 h
  rw [if_neg hk11] at h
  by_cases hk12 : k = "resolver"
  · rw [if_pos hk12] at h
    exact setResolver_id cfg _ cfg2 h
  rw [if_neg hk12] at h
  by_cases hk13 : k = "login_flags"
  · rw [if_pos hk13] at h
    exact setLoginFlags_id cfg _ cfg2 h
  rw [if_neg hk13] at h
  by_cases hk14 : k = "tags"
  · rw [if_pos hk14] at h
    exact setTags_id cfg _ cfg2 h
  rw [if_neg hk14] at h
  injection h with h1
  rw [← h1]
  exact Store.get_set_ne _ _ _ _ (Ne.symm hid)

theorem setName_stable (cfg : JailConfig) (i : String) (hst : idStable i) :
    setName cfg (.str i) = .ok { cfg with data := cfg.data.set "id" (.str i) } := by
  obtain ⟨hvu, hp⟩ := hst
  by_cases hv : validate_name i = true
  · simp [setName, hv, hp]
  · have hv' : validate_name i = false := by
      cases hb : validate_name i
      · rfl
      · exact absurd hb hv
    have hu : uuidNormalize i = some i := by
      rcases hvu with hva | huu
      · exact absurd hva hv
      · exact huu
    simp [setName, hv', hu, hp]

theorem getItem_id_of_data (cfg : JailConfig) (w : Value)
    (h : cfg.data.get? "id" = some w) : getItem cfg "id" = .ok w := by
  have h0 : getItem cfg "id"
      = (match getPlainTier cfg "id" false with
         | .ok x => .ok x
         | .error _ =>
             (match cfg.defaults.get? "id" with
              | some x => .ok x
              | none => .error .keyError)) := rfl
  rw [h0]
  unfold getPlainTier
  rw [h]
  rfl

theorem cloneGo_id (m : Store) :
    ∀ (cfg : JailConfig) (skip : Bool) (i : String),
      idStable i →
      cfg.data.get? "id" = some (.str i) →
      (cloneGo cfg (.str i) m skip).1.data.get? "id" = some (.str i) := by
  induction m with
  | nil =>
      intro cfg skip i hst hid
      exact hid
  | cons p rest ih =>
      obtain ⟨k, v⟩ := p
      intro cfg skip i hst hid
      unfold cloneGo
      dsimp only
      by_cases hk : isAliasKey k = true
      · rw [if_pos ⟨hk, by simp⟩]
        have hk3 : k = "id" ∨ k = "name" ∨ k = "uuid" := by
          simpa [isAliasKey] using hk
        rcases hk3 with rfl | rfl | rfl
        · have hsi : setItem cfg "id" (.str i) (some (.bool skip))
              = .ok { cfg with data := cfg.data.set "id" (.str i) } := by
            have h00 : setItem cfg "id" (.str i) (some (.bool skip))
                = .ok { cfg with data := cfg.data.set "id" (parseUserInput (.str i)) } := rfl
            rw [h00, hst.2]
          rw [hsi]
          exact ih _ skip i hst (Store.get_set_same _ _ _)
        · have hsi : setItem cfg "name" (.str i) (some (.bool skip))
              = .ok { cfg with data := cfg.data.set "id" (.str i) } := by
            have h00 : setItem cfg "name" (.str i) (some (.bool skip))
                = setName cfg (parseUserInput (.str i)) := rfl
            rw [h00, hst.2]
            exact setName_stable cfg i hst
          rw [hsi]
          exact ih _ skip i hst (Store.get_set_same _ _ _)
        · have hsi : setItem cfg "uuid" (.str i) (some (.bool skip))
              = .ok { cfg with data := cfg.data.set "uuid" (.str i) } := by
            have h00 : setItem cfg "uuid" (.str i) (some (.bool skip))
                = .ok { cfg with data := cfg.data.set "uuid" (parseUserInput (.str i)) } := rfl
            rw [h00, hst.2]
          rw [hsi]
          refine ih _ skip i hst ?_
          rw [Store.get_set_ne _ _ _ _ (by decide)]
          exact hid
      · have hkname : k ≠ "name" := by
          intro he
          apply hk
          rw [he]
          rfl
        have hkid : k ≠ "id" := by
          intro he
          apply hk
          rw [he]
          rfl
        rw [if_neg (fun hc => hk hc.1)]
        cases hsi : setItem cfg k v (some (.bool skip)) with
        | ok c2 =>
            show (cloneGo c2 (Value.str i) rest skip).1.data.get? "id" = some (Value.str i)
            refine ih _ skip i hst ?_
            rw [setItem_preserves_id cfg k v _ c2 hkname hkid hsi]
            exact hid
        | error e =>
            show cfg.data.get? "id" = some (Value.str i)
            exact hid

/-- C4 counterexample: the identity is not immutable under bulk
updates in general.  A configuration constructed with no identity,
then bulk-updated with a raw braced UUID under the `id` key (stored
unvalidated while the identity was unset), has its id changed by a
later bulk update containing the `name` alias with a different value:
the pinned raw id is re-validated and replaced by its canonical UUID
form. -/
theorem claim_C4_counterexample :
    c4cfg1.data.get? "id"
      = some (Value.str "\x7b4f3d2b1a-0000-0000-0000-000000000000\x7d")
    ∧ c4cfg2.data.get? "id"
      = some (Value.str "4f3d2b1a-0000-0000-0000-000000000000")
    ∧ ¬ c4cfg2.data.get? "id" = c4cfg1.data.get? "id" := by
  refine ⟨by decide, by decide, by decide⟩

/-- C4 (amended): the identity is immutable under bulk updates
provided the stored id has the shape identity assignment produces —
it passes name validation or is its own canonical UUID form, and is
not re-coerced by input parsing.  Under that proviso, every clone
(bulk apply) with any mapping — whatever alias keys and values it
contains — leaves the stored id unchanged; a raw id written directly
to the plain store while the identity was unset need not have this
shape, and a later name-alias occurrence then canonicalizes it. -/
theorem claim_C4_amended :
    ∀ (cfg : JailConfig) (m : Store) (skip : Bool) (i : String),
      cfg.data.get? "id" = some (.str i) → idStable i →
      (clone cfg m skip).1.data.get? "id" = some (.str i) := by
  intro cfg m skip i hid hst
  unfold clone
  rw [getItem_id_of_data cfg (.str i) hid]
  exact cloneGo_id m cfg skip i hst hid

/-- C4 amended, witness: a configuration whose identity was set to
web01 through identity assignment keeps that id across a bulk update
containing all three aliases with different values. -/
theorem claim_C4_amended_witness :
    (clone c4w
      [("name", Value.str "other"), ("uuid", Value.str "zzz"),
       ("id", Value.str "yyy"), ("release", Value.str "13.0")] false).1.data.get? "id"
      = some (Value.str "web01") :=
  claim_C4_amended c4w
    [("name", Value.str "other"), ("uuid", Value.str "zzz"),
     ("id", Value.str "yyy"), ("release", Value.str "13.0")] false "web01"
    (by decide) (by decide)

end Libiocage
